import Mathlib

/-!
Shallow embedding of the write-prepared transaction lifecycle
(`utilities/transactions/write_prepared_txn.cc`): prepare, commit,
rollback-batch reconstruction, snapshot validation and the read
visibility bound.  Engine collaborators (the write engine, the DB read
path, duplicate-key detection and sub-batch counting) are passed in as
oracles; the functions below mirror the control flow of the source and
record their externally visible effects as an ordered event trace.
-/

namespace WritePrepared

/-- Result statuses used by the translated functions, mirroring
`rocksdb::Status`: `ok`, `notFound`, `invalidArgument`, and `err c`
standing for any other (unexpected) status with payload `c`. -/
inductive Status where
  | ok
  | notFound
  | invalidArgument
  | err (code : Nat)
deriving DecidableEq, Repr

/-- RocksDB sequence-number upper bound `kMaxSequenceNumber = (1 << 56) - 1`. -/
def kMaxSequenceNumber : Nat := 2 ^ 56 - 1

/-- Outcome of a DB point read (`DBImpl::GetImpl` with a read callback):
a value, not-found, or an unexpected error. -/
inductive ReadResult where
  | found (val : Nat)
  | notFound
  | err (code : Nat)
deriving DecidableEq, Repr

/-- The DB read oracle: column family, key, and snapshot visibility floor
to a read outcome.  Keys, values and column families are coded as `Nat`. -/
def DbRead : Type := Nat → Nat → Nat → ReadResult

/-- `WritePreparedTxnReadCallback`: carries the snapshot sequence number
bounding read visibility. -/
structure WritePreparedTxnReadCallback where
  snapSeq : Nat
deriving DecidableEq, Repr

/-- `WritePreparedTxn::Get` (lines 36-46): the visibility bound handed to
the read callback is the snapshot's sequence number when `ReadOptions`
carries a snapshot, else `kMaxSequenceNumber`. -/
def Get (readOptionsSnapshot : Option Nat) : WritePreparedTxnReadCallback :=
  match readOptionsSnapshot with
  | some snap => ⟨snap⟩
  | none => ⟨kMaxSequenceNumber⟩

/-- One entry of a write batch as seen by `WriteBatch::Handler`:
the four keyed mutations and the durability markers. -/
inductive BatchEntry where
  | put (cf key val : Nat)
  | del (cf key : Nat)
  | singleDel (cf key : Nat)
  | merge (cf key val : Nat)
  | markNoop (emptyBatch : Bool)
  | markBeginPrepare
  | markEndPrepare (name : Nat)
  | markCommit (name : Nat)
  | markRollback (name : Nat)
deriving DecidableEq, Repr

/-- An operation appended to the synthesized rollback batch:
`Put` restoring a pre-transaction value or `Delete` of a key that did
not exist before the transaction. -/
inductive RollbackOp where
  | put (cf key val : Nat)
  | del (cf key : Nat)
deriving DecidableEq, Repr

/-- The (column family, key) pair a rollback operation targets. -/
def RollbackOp.cfKey : RollbackOp → Nat × Nat
  | .put cf key _ => (cf, key)
  | .del cf key => (cf, key)

/-- Mutable state of `RollbackWriteBatchBuilder`: `keys` models the
per-column-family sets `keys_` of already-processed keys (flattened to a
list of (cf, key) pairs), `batch` the rollback batch being built. -/
structure RollbackState where
  keys : List (Nat × Nat)
  batch : List RollbackOp
deriving DecidableEq, Repr

/-- `RollbackWriteBatchBuilder::Rollback` (lines 183-214): skip a
(cf, key) already in the set; otherwise insert it, read the key back at
the visibility floor `snapSeq`, and append a Put of the read-back value,
a Delete on not-found, or return any other status to the caller with
nothing appended. -/
def RollbackBuilder.Rollback (db : DbRead) (snapSeq : Nat) (cf key : Nat)
    (st : RollbackState) : Status × RollbackState :=
  if (cf, key) ∈ st.keys then
    (Status.ok, st)
  else
    let st' : RollbackState := { st with keys := (cf, key) :: st.keys }
    match db cf key snapSeq with
    | ReadResult.found v =>
        (Status.ok, { st' with batch := st'.batch ++ [RollbackOp.put cf key v] })
    | ReadResult.notFound =>
        (Status.ok, { st' with batch := st'.batch ++ [RollbackOp.del cf key] })
    | ReadResult.err c => (Status.err c, st')

/-- Dispatch of one batch entry to the handler callbacks (lines 216-239):
the four mutations all funnel into `Rollback`; `MarkNoop`,
`MarkBeginPrepare`, `MarkEndPrepare`, `MarkCommit` succeed without
effect; `MarkRollback` returns `InvalidArgument`. -/
def RollbackBuilder.handle (db : DbRead) (snapSeq : Nat) (e : BatchEntry)
    (st : RollbackState) : Status × RollbackState :=
  match e with
  | BatchEntry.put cf key _ => RollbackBuilder.Rollback db snapSeq cf key st
  | BatchEntry.del cf key => RollbackBuilder.Rollback db snapSeq cf key st
  | BatchEntry.singleDel cf key => RollbackBuilder.Rollback db snapSeq cf key st
  | BatchEntry.merge cf key _ => RollbackBuilder.Rollback db snapSeq cf key st
  | BatchEntry.markNoop _ => (Status.ok, st)
  | BatchEntry.markBeginPrepare => (Status.ok, st)
  | BatchEntry.markEndPrepare _ => (Status.ok, st)
  | BatchEntry.markCommit _ => (Status.ok, st)
  | BatchEntry.markRollback _ => (Status.invalidArgument, st)

/-- `WriteBatch::Iterate` over the rollback handler: feed the entries in
order, stopping at the first non-OK status, which is returned. -/
def RollbackBuilder.iterate (db : DbRead) (snapSeq : Nat) :
    List BatchEntry → RollbackState → Status × RollbackState
  | [], st => (Status.ok, st)
  | e :: rest, st =>
      let r := RollbackBuilder.handle db snapSeq e st
      if r.1 = Status.ok then RollbackBuilder.iterate db snapSeq rest r.2
      else r

/-- The rollback batch `RollbackInternal` builds for a transaction with
id `txnId` over `pendingBatch`: the builder is run with visibility floor
`txnId - 1` (`last_visible_txn`, line 165) and an empty initial state. -/
def rollbackBatchOf (db : DbRead) (txnId : Nat) (pendingBatch : List BatchEntry) :
    List RollbackOp :=
  (RollbackBuilder.iterate db (txnId - 1) pendingBatch ⟨[], []⟩).2.batch

/-- Arguments of a `WritePreparedCommitEntryPreReleaseCallback`:
prepare sequence, prepare batch count, commit batch count, and the
prep-heap-skipped flag. -/
structure CommitCallbackInfo where
  prepSeq : Nat
  prepBatchCnt : Nat
  commitBatchCnt : Nat
  prepHeapSkipped : Bool
deriving DecidableEq, Repr

/-- The content of a batch handed to `DBImpl::WriteImpl` by the
lifecycle functions: the synthesized rollback data batch (with its
trailing rollback marker name), the dual-queue second write's empty
log-data/noop batch, or the commit-time working batch. -/
inductive WrittenBatch where
  | rollbackData (ops : List RollbackOp) (name : Nat)
  | emptyLogOnly
  | commitBatch
deriving DecidableEq, Repr

/-- Externally visible effects, in program order: an engine write (with
memtable disablement, batch count, and the pre-release callback if any),
a `RollbackPrepared` call, an `AddPrepared` call, and marking the
working batch as the latest persistent state. -/
inductive Event where
  | write (batch : WrittenBatch) (disableMemtable : Bool) (batchCnt : Nat)
      (cb : Option CommitCallbackInfo)
  | rollbackPrepared (prepSeq rollbackSeq : Nat)
  | addPrepared (seq : Nat)
  | setLatestPersistentState
deriving DecidableEq, Repr

/-- The write-engine oracle: maps the index of a `WriteImpl` call inside
one lifecycle function to the status it returns and the sequence number
it assigns. -/
def WriteOutcome : Type := Nat → Status × Nat

/-- `WritePreparedTxn::RollbackInternal` (lines 158-299): build the
rollback batch at floor `txnId - 1`, append the rollback marker, then in
single-queue mode one write carrying the resolving callback
`(kMaxSequenceNumber, 0, 1)` followed by `RollbackPrepared`; in
dual-queue mode a first data write with no callback, then an empty
log-only write with callback `(first-write seq, 1, 0, heap-skipped)`,
and `RollbackPrepared` only after that second write succeeds.  Returns
the final status and the event trace. -/
def RollbackInternal (db : DbRead) (txnId name : Nat)
    (pendingBatch : List BatchEntry) (twoWriteQueues : Bool)
    (w : WriteOutcome) : Status × List Event :=
  let r := RollbackBuilder.iterate db (txnId - 1) pendingBatch ⟨[], []⟩
  if r.1 ≠ Status.ok then (r.1, [])
  else
    let rollbackBatch := WrittenBatch.rollbackData r.2.batch name
    let doOneWrite := !twoWriteQueues
    let updateCommitMap : CommitCallbackInfo := ⟨kMaxSequenceNumber, 0, 1, false⟩
    let cb1 := if doOneWrite then some updateCommitMap else none
    let o1 := w 0
    let ev1 := Event.write rollbackBatch false 1 cb1
    if o1.1 ≠ Status.ok then (o1.1, [ev1])
    else if doOneWrite then
      (o1.1, [ev1, Event.rollbackPrepared txnId o1.2])
    else
      let updateCommitMapWithPrepare : CommitCallbackInfo := ⟨o1.2, 1, 0, true⟩
      let o2 := w 1
      let ev2 := Event.write WrittenBatch.emptyLogOnly true 1
        (some updateCommitMapWithPrepare)
      if o2.1 ≠ Status.ok then (o2.1, [ev1, ev2])
      else (o2.1, [ev1, ev2, Event.rollbackPrepared txnId o2.2])

/-- Transaction lifecycle states (`PessimisticTransaction`). -/
inductive TxnState where
  | started
  | prepared
  | committed
  | rolledBack
deriving DecidableEq, Repr

/-- Result of `PrepareInternal`: the returned status, the id set via
`SetId`, the computed `prepare_batch_cnt_`, the `AddPrepared` calls
made, whether `SubBatchCounter` was run, and the (untouched) transaction
state. -/
structure PrepareResult where
  status : Status
  id : Nat
  prepareBatchCnt : Nat
  addPreparedCalls : List Nat
  subCounterInvoked : Bool
  state : TxnState
deriving DecidableEq, Repr

/-- `WritePreparedTxn::PrepareInternal` (lines 65-97):
`prepare_batch_cnt_` is 1 unless duplicate keys are detected, in which
case `SubBatchCounter` is run and its `BatchCount` used; the batch is
submitted, the assigned sequence becomes the id, and `AddPrepared` is
called only when the write succeeded.  `hasDuplicateKeys` and
`subBatchCount` stand for the external `HasDuplicateKeys()` and
`SubBatchCounter::BatchCount()` results on the pending batch. -/
def PrepareInternal (hasDuplicateKeys : Bool) (subBatchCount : Nat)
    (writeOutcome : Status × Nat) (st : TxnState) : PrepareResult :=
  let prepareBatchCnt := if hasDuplicateKeys then subBatchCount else 1
  let s := writeOutcome.1
  let prepareSeq := writeOutcome.2
  { status := s
    id := prepareSeq
    prepareBatchCnt := prepareBatchCnt
    addPreparedCalls := if s = Status.ok then [prepareSeq] else []
    subCounterInvoked := hasDuplicateKeys
    state := st }

/-- `WritePreparedTxn::CommitInternal` (lines 113-156):
`empty` is whether the commit-time batch has no entries; the batch is
marked as the latest persistent state only when it is non-empty and the
last-commit-time-batch recovery policy is configured; `commit_batch_cnt`
is the sub-batch count of the working batch when it carries data
(non-empty and not for-recovery), else 0; the final write disables the
memtable exactly when no data is carried, uses batch count
`commit_batch_cnt` when non-zero else 1, and carries the pre-release
callback `(prepare seq, prepare batch count, commit batch count)`.
`commitSubBatchCount` stands for `SubBatchCounter::BatchCount()` on the
working batch. -/
def CommitInternal (commitTimeBatchCount : Nat) (forRecovery : Bool)
    (prepareSeq prepareBatchCnt commitSubBatchCount : Nat)
    (writeOutcome : Status × Nat) : Status × List Event :=
  let empty : Bool := commitTimeBatchCount == 0
  let latestEvents :=
    if !empty && forRecovery then [Event.setLatestPersistentState] else []
  let includesData := !empty && !forRecovery
  let commitBatchCnt := if includesData then commitSubBatchCount else 0
  let updateCommitMap : CommitCallbackInfo :=
    ⟨prepareSeq, prepareBatchCnt, commitBatchCnt, false⟩
  let disableMemtable := !includesData
  let batchCnt := if commitBatchCnt ≠ 0 then commitBatchCnt else 1
  (writeOutcome.1,
    latestEvents ++
      [Event.write WrittenBatch.commitBatch disableMemtable batchCnt
        (some updateCommitMap)])

/-- `WritePreparedTxn::ValidateSnapshot` (lines 301-326): if the key's
tracked validation floor is already at most the snapshot's sequence
number, succeed at once; otherwise set the floor to the snapshot's
sequence and delegate to `TransactionUtil::CheckKeyForConflicts`.
Returns (status, updated floor, whether the conflict scan ran). -/
def ValidateSnapshot (checkKeyForConflicts : Nat → Nat → Status)
    (snapSeq key trackedAtSeq : Nat) : Status × Nat × Bool :=
  if trackedAtSeq ≤ snapSeq then
    (Status.ok, trackedAtSeq, false)
  else
    (checkKeyForConflicts key snapSeq, snapSeq, true)

/-- Every operation in a rollback batch records the outcome of the DB
read of its key at the visibility floor `snapSeq`: a `put` carries the
value found there, a `del` marks a key not found there. -/
def GoodOps (db : DbRead) (snapSeq : Nat) (ops : List RollbackOp) : Prop :=
  ∀ op ∈ ops,
    match op with
    | RollbackOp.put cf key v => db cf key snapSeq = ReadResult.found v
    | RollbackOp.del cf key => db cf key snapSeq = ReadResult.notFound

/-- Concrete DB read oracle for instantiations: every key absent. -/
def dbNotFound : DbRead := fun _ _ _ => ReadResult.notFound

/-- Concrete DB read oracle for instantiations: every key holds 10. -/
def dbFound : DbRead := fun _ _ _ => ReadResult.found 10

/-- Concrete write-engine oracle: every write succeeds with sequence 42. -/
def wOk : WriteOutcome := fun _ => (Status.ok, 42)

/-- Concrete conflict-check oracle: always reports an error. -/
def chkErr : Nat → Nat → Status := fun _ _ => Status.err 3

/-- `Rollback` on a (cf, key) already in the processed set is a no-op. -/
theorem Rollback_skip (db : DbRead) (snapSeq cf key : Nat)
    (st : RollbackState) (h : (cf, key) ∈ st.keys) :
    RollbackBuilder.Rollback db snapSeq cf key st = (Status.ok, st) := by
  unfold RollbackBuilder.Rollback
  rw [if_pos h]

/-- `Rollback` on a fresh key whose read finds a value appends a `put`
of that value and records the key. -/
theorem Rollback_found (db : DbRead) (snapSeq cf key v : Nat)
    (st : RollbackState) (hmem : (cf, key) ∉ st.keys)
    (hread : db cf key snapSeq = ReadResult.found v) :
    RollbackBuilder.Rollback db snapSeq cf key st =
      (Status.ok, ⟨(cf, key) :: st.keys, st.batch ++ [RollbackOp.put cf key v]⟩) := by
  unfold RollbackBuilder.Rollback
  rw [if_neg hmem, hread]

/-- `Rollback` on a fresh key whose read comes back not-found appends a
`del` of that key and records the key. -/
theorem Rollback_notFound (db : DbRead) (snapSeq cf key : Nat)
    (st : RollbackState) (hmem : (cf, key) ∉ st.keys)
    (hread : db cf key snapSeq = ReadResult.notFound) :
    RollbackBuilder.Rollback db snapSeq cf key st =
      (Status.ok, ⟨(cf, key) :: st.keys, st.batch ++ [RollbackOp.del cf key]⟩) := by
  unfold RollbackBuilder.Rollback
  rw [if_neg hmem, hread]

/-- `Rollback` on a fresh key whose read errors returns the error with
the key recorded but nothing appended to the rollback batch. -/
theorem Rollback_err (db : DbRead) (snapSeq cf key c : Nat)
    (st : RollbackState) (hmem : (cf, key) ∉ st.keys)
    (hread : db cf key snapSeq = ReadResult.err c) :
    RollbackBuilder.Rollback db snapSeq cf key st =
      (Status.err c, ⟨(cf, key) :: st.keys, st.batch⟩) := by
  unfold RollbackBuilder.Rollback
  rw [if_neg hmem, hread]

/-- Appending one operation for a fresh (cf, key) preserves the builder
invariant on the extended state. -/
theorem inv_append_op (db : DbRead) (snapSeq : Nat) (st : RollbackState)
    (op : RollbackOp) (cf key : Nat) (hop : op.cfKey = (cf, key))
    (hgoodop : GoodOps db snapSeq [op])
    (hnd : (st.batch.map RollbackOp.cfKey).Nodup)
    (hsub : ∀ p ∈ st.batch.map RollbackOp.cfKey, p ∈ st.keys)
    (hmem : (cf, key) ∉ st.keys)
    (hgood : GoodOps db snapSeq st.batch) :
    (((st.batch ++ [op]).map RollbackOp.cfKey).Nodup) ∧
    (∀ p ∈ (st.batch ++ [op]).map RollbackOp.cfKey, p ∈ (cf, key) :: st.keys) ∧
    GoodOps db snapSeq (st.batch ++ [op]) := by
  have hnew : (cf, key) ∉ st.batch.map RollbackOp.cfKey :=
    fun hin => hmem (hsub _ hin)
  refine ⟨?_, ?_, ?_⟩
  · rw [List.map_append, List.nodup_append]
    refine ⟨hnd, List.nodup_singleton _, ?_⟩
    intro p hp hp2
    rw [List.map_singleton, hop, List.mem_singleton] at hp2
    subst hp2
    exact hnew hp
  · intro p hp
    rw [List.map_append] at hp
    rcases List.mem_append.mp hp with h1 | h1
    · exact List.mem_cons_of_mem _ (hsub _ h1)
    · rw [List.map_singleton, hop, List.mem_singleton] at h1
      subst h1
      exact List.mem_cons_self _ _
  · intro o ho
    rcases List.mem_append.mp ho with h1 | h1
    · exact hgood o h1
    · exact hgoodop o h1

/-- One `Rollback` step preserves the builder invariant: the rollback
batch mentions each (cf, key) at most once, every such pair is in the
processed-keys set, and every appended operation reflects the DB read at
the floor. -/
theorem Rollback_preserves_inv (db : DbRead) (snapSeq cf key : Nat)
    (st : RollbackState)
    (hnd : (st.batch.map RollbackOp.cfKey).Nodup)
    (hsub : ∀ p ∈ st.batch.map RollbackOp.cfKey, p ∈ st.keys)
    (hgood : GoodOps db snapSeq st.batch) :
    (((RollbackBuilder.Rollback db snapSeq cf key st).2.batch.map
        RollbackOp.cfKey).Nodup) ∧
    (∀ p ∈ (RollbackBuilder.Rollback db snapSeq cf key st).2.batch.map
        RollbackOp.cfKey, p ∈ (RollbackBuilder.Rollback db snapSeq cf key st).2.keys) ∧
    GoodOps db snapSeq (RollbackBuilder.Rollback db snapSeq cf key st).2.batch := by
  by_cases hmem : (cf, key) ∈ st.keys
  · rw [Rollback_skip db snapSeq cf key st hmem]
    exact ⟨hnd, hsub, hgood⟩
  · cases hread : db cf key snapSeq with
    | found v =>
        rw [Rollback_found db snapSeq cf key v st hmem hread]
        exact inv_append_op db snapSeq st (RollbackOp.put cf key v) cf key rfl
          (by intro o ho; rcases List.mem_singleton.mp ho with rfl; exact hread)
          hnd hsub hmem hgood
    | notFound =>
        rw [Rollback_notFound db snapSeq cf key st hmem hread]
        exact inv_append_op db snapSeq st (RollbackOp.del cf key) cf key rfl
          (by intro o ho; rcases List.mem_singleton.mp ho with rfl; exact hread)
          hnd hsub hmem hgood
    | err c =>
        rw [Rollback_err db snapSeq cf key c st hmem hread]
        exact ⟨hnd, fun p hp => List.mem_cons_of_mem _ (hsub _ hp), hgood⟩

/-- Handling any single batch entry preserves the builder invariant. -/
theorem handle_preserves_inv (db : DbRead) (snapSeq : Nat) (e : BatchEntry)
    (st : RollbackState)
    (hnd : (st.batch.map RollbackOp.cfKey).Nodup)
    (hsub : ∀ p ∈ st.batch.map RollbackOp.cfKey, p ∈ st.keys)
    (hgood : GoodOps db snapSeq st.batch) :
    (((RollbackBuilder.handle db snapSeq e st).2.batch.map
        RollbackOp.cfKey).Nodup) ∧
    (∀ p ∈ (RollbackBuilder.handle db snapSeq e st).2.batch.map
        RollbackOp.cfKey, p ∈ (RollbackBuilder.handle db snapSeq e st).2.keys) ∧
    GoodOps db snapSeq (RollbackBuilder.handle db snapSeq e st).2.batch := by
  cases e <;>
    first
      | exact Rollback_preserves_inv db snapSeq _ _ st hnd hsub hgood
      | exact ⟨hnd, hsub, hgood⟩

/-- Iterating the rollback builder over any batch preserves the builder
invariant on the final state, whatever status the traversal returns. -/
theorem iterate_preserves_inv (db : DbRead) (snapSeq : Nat)
    (L : List BatchEntry) (st : RollbackState)
    (hnd : (st.batch.map RollbackOp.cfKey).Nodup)
    (hsub : ∀ p ∈ st.batch.map RollbackOp.cfKey, p ∈ st.keys)
    (hgood : GoodOps db snapSeq st.batch) :
    (((RollbackBuilder.iterate db snapSeq L st).2.batch.map
        RollbackOp.cfKey).Nodup) ∧
    GoodOps db snapSeq (RollbackBuilder.iterate db snapSeq L st).2.batch := by
  induction L generalizing st with
  | nil => exact ⟨hnd, hgood⟩
  | cons e rest ih =>
      have h' := handle_preserves_inv db snapSeq e st hnd hsub hgood
      simp only [RollbackBuilder.iterate]
      split
      · exact ih _ h'.1 h'.2.1 h'.2.2
      · exact ⟨h'.1, h'.2.2⟩

/-- C10: for every Get call, the snapshot visibility bound passed to the
read callback is the supplied snapshot's sequence number when
`ReadOptions` carries a snapshot, and `kMaxSequenceNumber` when it
carries none. -/
theorem Get_visibility_bound (s : Nat) :
    (Get (some s)).snapSeq = s ∧ (Get none).snapSeq = kMaxSequenceNumber :=
  ⟨rfl, rfl⟩

/-- C6: `prepare_batch_cnt_` is 1 when the pending batch has no
duplicate (cf, key) pairs, `SubBatchCounter` runs exactly when
duplicates are detected, and in that case the count equals its
`BatchCount` over the batch. -/
theorem PrepareInternal_sub_batch_count (hasDup : Bool) (subCnt : Nat)
    (w : Status × Nat) (st : TxnState) :
    (PrepareInternal hasDup subCnt w st).prepareBatchCnt
        = (if hasDup then subCnt else 1) ∧
    (PrepareInternal hasDup subCnt w st).subCounterInvoked = hasDup :=
  ⟨rfl, rfl⟩

/-- C5: if the prepare write fails, `PrepareInternal` makes no
`AddPrepared` call, returns the write engine's status verbatim, and
leaves the transaction state untouched. -/
theorem PrepareInternal_failure (hasDup : Bool) (subCnt : Nat)
    (w : Status × Nat) (st : TxnState) (h : w.1 ≠ Status.ok) :
    (PrepareInternal hasDup subCnt w st).addPreparedCalls = [] ∧
    (PrepareInternal hasDup subCnt w st).status = w.1 ∧
    (PrepareInternal hasDup subCnt w st).state = st := by
  refine ⟨?_, rfl, rfl⟩
  simp [PrepareInternal, h]

/-- Witness for C5 at a concrete failing write outcome. -/
theorem PrepareInternal_failure_witness :
    ((Status.err 5, 7) : Status × Nat).1 ≠ Status.ok ∧
    ((PrepareInternal true 3 (Status.err 5, 7) TxnState.started).addPreparedCalls = [] ∧
      (PrepareInternal true 3 (Status.err 5, 7) TxnState.started).status
        = ((Status.err 5, 7) : Status × Nat).1 ∧
      (PrepareInternal true 3 (Status.err 5, 7) TxnState.started).state
        = TxnState.started) :=
  ⟨by decide, PrepareInternal_failure true 3 (Status.err 5, 7) TxnState.started (by decide)⟩

/-- C8: during rollback-batch reconstruction the MarkNoop,
MarkBeginPrepare, MarkEndPrepare and MarkCommit markers succeed leaving
the builder state unchanged, while a MarkRollback marker yields
InvalidArgument and makes the traversal return that error. -/
theorem rollback_marker_handling (db : DbRead) (snapSeq n : Nat) (b : Bool)
    (st : RollbackState) (rest : List BatchEntry) :
    RollbackBuilder.handle db snapSeq (BatchEntry.markNoop b) st = (Status.ok, st) ∧
    RollbackBuilder.handle db snapSeq BatchEntry.markBeginPrepare st = (Status.ok, st) ∧
    RollbackBuilder.handle db snapSeq (BatchEntry.markEndPrepare n) st = (Status.ok, st) ∧
    RollbackBuilder.handle db snapSeq (BatchEntry.markCommit n) st = (Status.ok, st) ∧
    RollbackBuilder.handle db snapSeq (BatchEntry.markRollback n) st
      = (Status.invalidArgument, st) ∧
    RollbackBuilder.iterate db snapSeq (BatchEntry.markRollback n :: rest) st
      = (Status.invalidArgument, st) := by
  refine ⟨rfl, rfl, rfl, rfl, rfl, ?_⟩
  simp [RollbackBuilder.iterate, RollbackBuilder.handle]

/-- C4: for a key not yet processed during rollback-batch construction,
a not-found read appends a Delete and is reported as success, a found
read appends a Put of the read-back value, and any other read status is
returned unchanged with nothing appended for that key. -/
theorem Rollback_read_outcomes (db : DbRead) (snapSeq cf key : Nat)
    (st : RollbackState) (h : (cf, key) ∉ st.keys) :
    (db cf key snapSeq = ReadResult.notFound →
      RollbackBuilder.Rollback db snapSeq cf key st =
        (Status.ok, ⟨(cf, key) :: st.keys, st.batch ++ [RollbackOp.del cf key]⟩)) ∧
    (∀ v, db cf key snapSeq = ReadResult.found v →
      RollbackBuilder.Rollback db snapSeq cf key st =
        (Status.ok, ⟨(cf, key) :: st.keys, st.batch ++ [RollbackOp.put cf key v]⟩)) ∧
    (∀ c, db cf key snapSeq = ReadResult.err c →
      RollbackBuilder.Rollback db snapSeq cf key st =
        (Status.err c, ⟨(cf, key) :: st.keys, st.batch⟩)) :=
  ⟨fun hr => Rollback_notFound db snapSeq cf key st h hr,
   fun v hr => Rollback_found db snapSeq cf key v st h hr,
   fun c hr => Rollback_err db snapSeq cf key c st h hr⟩

/-- Witness for C4 on an empty builder state. -/
theorem Rollback_read_outcomes_witness :
    ((0, 1) : Nat × Nat) ∉ (RollbackState.mk [] []).keys ∧
    ((dbNotFound 0 1 9 = ReadResult.notFound →
      RollbackBuilder.Rollback dbNotFound 9 0 1 (RollbackState.mk [] []) =
        (Status.ok, ⟨(0, 1) :: (RollbackState.mk [] []).keys,
          (RollbackState.mk [] []).batch ++ [RollbackOp.del 0 1]⟩)) ∧
    (∀ v, dbNotFound 0 1 9 = ReadResult.found v →
      RollbackBuilder.Rollback dbNotFound 9 0 1 (RollbackState.mk [] []) =
        (Status.ok, ⟨(0, 1) :: (RollbackState.mk [] []).keys,
          (RollbackState.mk [] []).batch ++ [RollbackOp.put 0 1 v]⟩)) ∧
    (∀ c, dbNotFound 0 1 9 = ReadResult.err c →
      RollbackBuilder.Rollback dbNotFound 9 0 1 (RollbackState.mk [] []) =
        (Status.err c, ⟨(0, 1) :: (RollbackState.mk [] []).keys,
          (RollbackState.mk [] []).batch⟩))) :=
  ⟨by decide, Rollback_read_outcomes dbNotFound 9 0 1 (RollbackState.mk [] []) (by decide)⟩

/-- `ValidateSnapshot` succeeds without scanning when the floor is at
most the snapshot sequence. -/
theorem ValidateSnapshot_fast (chk : Nat → Nat → Status) (s key t : Nat)
    (h : t ≤ s) : ValidateSnapshot chk s key t = (Status.ok, t, false) := by
  unfold ValidateSnapshot
  rw [if_pos h]

/-- `ValidateSnapshot` updates the floor and delegates when the floor
exceeds the snapshot sequence. -/
theorem ValidateSnapshot_scan (chk : Nat → Nat → Status) (s key t : Nat)
    (h : ¬ t ≤ s) : ValidateSnapshot chk s key t = (chk key s, s, true) := by
  unfold ValidateSnapshot
  rw [if_neg h]

/-- C9: `ValidateSnapshot` returns success immediately without the
conflict scan when the tracked floor is at most the snapshot sequence,
otherwise sets the floor to the snapshot sequence and delegates; hence a
second call with a non-decreasing snapshot sequence short-circuits and
the two calls scan at most once. -/
theorem ValidateSnapshot_memoized (chk : Nat → Nat → Status)
    (key t0 s1 s2 : Nat) (h : s1 ≤ s2) :
    (t0 ≤ s1 → ValidateSnapshot chk s1 key t0 = (Status.ok, t0, false)) ∧
    (¬ t0 ≤ s1 → ValidateSnapshot chk s1 key t0 = (chk key s1, s1, true)) ∧
    ValidateSnapshot chk s2 key (ValidateSnapshot chk s1 key t0).2.1
      = (Status.ok, (ValidateSnapshot chk s1 key t0).2.1, false) ∧
    ((if (ValidateSnapshot chk s1 key t0).2.2 then 1 else 0)
      + (if (ValidateSnapshot chk s2 key (ValidateSnapshot chk s1 key t0).2.1).2.2
          then 1 else 0) ≤ 1) := by
  have hle : (ValidateSnapshot chk s1 key t0).2.1 ≤ s2 := by
    by_cases h1 : t0 ≤ s1
    · rw [ValidateSnapshot_fast chk s1 key t0 h1]
      exact le_trans h1 h
    · rw [ValidateSnapshot_scan chk s1 key t0 h1]
      exact h
  refine ⟨fun h1 => ValidateSnapshot_fast chk s1 key t0 h1,
          fun h1 => ValidateSnapshot_scan chk s1 key t0 h1,
          ValidateSnapshot_fast chk s2 key _ hle, ?_⟩
  rw [ValidateSnapshot_fast chk s2 key _ hle]
  by_cases h1 : (ValidateSnapshot chk s1 key t0).2.2 <;> simp [h1]

/-- Witness for C9 with snapshot sequences 2 ≤ 3 and initial floor 9. -/
theorem ValidateSnapshot_memoized_witness :
    (2 : Nat) ≤ 3 ∧
    (((9 : Nat) ≤ 2 → ValidateSnapshot chkErr 2 5 9 = (Status.ok, 9, false)) ∧
     (¬ (9 : Nat) ≤ 2 → ValidateSnapshot chkErr 2 5 9 = (chkErr 5 2, 2, true)) ∧
     ValidateSnapshot chkErr 3 5 (ValidateSnapshot chkErr 2 5 9).2.1
       = (Status.ok, (ValidateSnapshot chkErr 2 5 9).2.1, false) ∧
     ((if (ValidateSnapshot chkErr 2 5 9).2.2 then 1 else 0)
       + (if (ValidateSnapshot chkErr 3 5 (ValidateSnapshot chkErr 2 5 9).2.1).2.2
           then 1 else 0) ≤ 1)) :=
  ⟨by decide, ValidateSnapshot_memoized chkErr 5 9 2 3 (by decide)⟩

/-- C1 counterexample: with an empty commit-time batch and the
last-commit-time-batch recovery policy configured, `CommitInternal` does
not record the batch as the latest persistent state. -/
theorem CommitInternal_empty_recovery_counterexample :
    Event.setLatestPersistentState ∉
      (CommitInternal 0 true 5 1 1 (Status.ok, 9)).2 := by
  decide

/-- C1 amended: when the commit-time batch is non-empty and the
last-commit-time-batch recovery policy is configured, `CommitInternal`
records the batch as the latest persistent state before submitting the
commit write. -/
theorem CommitInternal_nonempty_recovery (cnt pseq pbc csbc : Nat)
    (w : Status × Nat) (h : cnt ≠ 0) :
    (CommitInternal cnt true pseq pbc csbc w).2 =
      [Event.setLatestPersistentState,
       Event.write WrittenBatch.commitBatch true 1
         (some ⟨pseq, pbc, 0, false⟩)] := by
  simp [CommitInternal, h]

/-- Witness for the amended C1 with a two-entry commit-time batch. -/
theorem CommitInternal_nonempty_recovery_witness :
    (2 : Nat) ≠ 0 ∧
    (CommitInternal 2 true 5 1 1 (Status.ok, 9)).2 =
      [Event.setLatestPersistentState,
       Event.write WrittenBatch.commitBatch true 1 (some ⟨5, 1, 0, false⟩)] :=
  ⟨by decide, CommitInternal_nonempty_recovery 2 5 1 1 (Status.ok, 9) (by decide)⟩

/-- C7: the final commit write uses batch count equal to the commit-time
batch's sub-batch count exactly when the write carries data, else 1, and
its pre-release callback carries the prepare sequence, the prepare
sub-batch count, and the commit sub-batch count. -/
theorem CommitInternal_batch_count (cnt : Nat) (forRec : Bool)
    (pseq pbc csbc : Nat) (w : Status × Nat) (h : 1 ≤ csbc) :
    ∃ pre, (CommitInternal cnt forRec pseq pbc csbc w).2 =
      pre ++ [Event.write WrittenBatch.commitBatch (!(!(cnt == 0) && !forRec))
        (if !(cnt == 0) && !forRec then csbc else 1)
        (some ⟨pseq, pbc, (if !(cnt == 0) && !forRec then csbc else 0), false⟩)] := by
  have hcs : csbc ≠ 0 := Nat.one_le_iff_ne_zero.mp h
  refine ⟨(if !(cnt == 0) && forRec then [Event.setLatestPersistentState] else []), ?_⟩
  cases hcb : (cnt == 0) <;> cases forRec <;>
    simp [CommitInternal, hcb, hcs]

/-- Witness for C7 with a data-carrying commit-time batch of sub-batch
count 3. -/
theorem CommitInternal_batch_count_witness :
    (1 : Nat) ≤ 3 ∧
    ∃ pre, (CommitInternal 2 false 5 2 3 (Status.ok, 9)).2 =
      pre ++ [Event.write WrittenBatch.commitBatch (!(!(2 == 0) && !false))
        (if !(2 == 0) && !false then 3 else 1)
        (some ⟨5, 2, (if !(2 == 0) && !false then 3 else 0), false⟩)] :=
  ⟨by decide, CommitInternal_batch_count 2 false 5 2 3 (Status.ok, 9) (by decide)⟩

/-- C2: under dual write queues, a successful rollback performs exactly
the data write with no pre-release callback followed by an empty
log-only write carrying the resolving callback, and `RollbackPrepared`
runs only after the second write succeeds; a failure of either write
ends the trace with no `RollbackPrepared`. -/
theorem RollbackInternal_dual_queue (db : DbRead) (txnId name : Nat)
    (pendingBatch : List BatchEntry) (w : WriteOutcome)
    (hiter : (RollbackBuilder.iterate db (txnId - 1) pendingBatch ⟨[], []⟩).1
      = Status.ok) :
    ((w 0).1 ≠ Status.ok →
      RollbackInternal db txnId name pendingBatch true w =
        ((w 0).1,
         [Event.write
            (WrittenBatch.rollbackData (rollbackBatchOf db txnId pendingBatch) name)
            false 1 none])) ∧
    ((w 0).1 = Status.ok → (w 1).1 ≠ Status.ok →
      RollbackInternal db txnId name pendingBatch true w =
        ((w 1).1,
         [Event.write
            (WrittenBatch.rollbackData (rollbackBatchOf db txnId pendingBatch) name)
            false 1 none,
          Event.write WrittenBatch.emptyLogOnly true 1 (some ⟨(w 0).2, 1, 0, true⟩)])) ∧
    ((w 0).1 = Status.ok → (w 1).1 = Status.ok →
      RollbackInternal db txnId name pendingBatch true w =
        (Status.ok,
         [Event.write
            (WrittenBatch.rollbackData (rollbackBatchOf db txnId pendingBatch) name)
            false 1 none,
          Event.write WrittenBatch.emptyLogOnly true 1 (some ⟨(w 0).2, 1, 0, true⟩),
          Event.rollbackPrepared txnId (w 1).2])) := by
  refine ⟨fun h1 => ?_, fun h1 h2 => ?_, fun h1 h2 => ?_⟩
  · simp [RollbackInternal, rollbackBatchOf, hiter, h1]
  · simp [RollbackInternal, rollbackBatchOf, hiter, h1, h2]
  · simp [RollbackInternal, rollbackBatchOf, hiter, h1, h2]

/-- Witness for C2 on a one-entry pending batch with all writes
succeeding. -/
theorem RollbackInternal_dual_queue_witness :
    (RollbackBuilder.iterate dbNotFound (7 - 1) [BatchEntry.put 0 1 2] ⟨[], []⟩).1
      = Status.ok ∧
    (((wOk 0).1 ≠ Status.ok →
      RollbackInternal dbNotFound 7 3 [BatchEntry.put 0 1 2] true wOk =
        ((wOk 0).1,
         [Event.write
            (WrittenBatch.rollbackData (rollbackBatchOf dbNotFound 7 [BatchEntry.put 0 1 2]) 3)
            false 1 none])) ∧
    ((wOk 0).1 = Status.ok → (wOk 1).1 ≠ Status.ok →
      RollbackInternal dbNotFound 7 3 [BatchEntry.put 0 1 2] true wOk =
        ((wOk 1).1,
         [Event.write
            (WrittenBatch.rollbackData (rollbackBatchOf dbNotFound 7 [BatchEntry.put 0 1 2]) 3)
            false 1 none,
          Event.write WrittenBatch.emptyLogOnly true 1 (some ⟨(wOk 0).2, 1, 0, true⟩)])) ∧
    ((wOk 0).1 = Status.ok → (wOk 1).1 = Status.ok →
      RollbackInternal dbNotFound 7 3 [BatchEntry.put 0 1 2] true wOk =
        (Status.ok,
         [Event.write
            (WrittenBatch.rollbackData (rollbackBatchOf dbNotFound 7 [BatchEntry.put 0 1 2]) 3)
            false 1 none,
          Event.write WrittenBatch.emptyLogOnly true 1 (some ⟨(wOk 0).2, 1, 0, true⟩),
          Event.rollbackPrepared 7 (wOk 1).2]))) :=
  ⟨by decide,
   RollbackInternal_dual_queue dbNotFound 7 3 [BatchEntry.put 0 1 2] wOk (by decide)⟩

/-- C3: the rollback batch built for a transaction touches each
(cf, key) at most once, every operation in it reflects the DB read of
its key at the visibility floor `txnId - 1` (a Put of the value found
before the transaction, a Delete of a key absent before it), and
`RollbackInternal`'s first engine write carries exactly that batch. -/
theorem rollback_batch_dedup_pre_txn (db : DbRead) (txnId name : Nat)
    (pendingBatch : List BatchEntry) (twoWriteQueues : Bool) (w : WriteOutcome)
    (hiter : (RollbackBuilder.iterate db (txnId - 1) pendingBatch ⟨[], []⟩).1
      = Status.ok) :
    ((rollbackBatchOf db txnId pendingBatch).map RollbackOp.cfKey).Nodup ∧
    GoodOps db (txnId - 1) (rollbackBatchOf db txnId pendingBatch) ∧
    (∃ cb rest, (RollbackInternal db txnId name pendingBatch twoWriteQueues w).2 =
      Event.write
        (WrittenBatch.rollbackData (rollbackBatchOf db txnId pendingBatch) name)
        false 1 cb :: rest) := by
  have hinv := iterate_preserves_inv db (txnId - 1) pendingBatch ⟨[], []⟩
    (by simp) (by simp) (by intro o ho; exact absurd ho (List.not_mem_nil o))
  refine ⟨hinv.1, hinv.2, ?_⟩
  cases twoWriteQueues <;> by_cases h1 : (w 0).1 = Status.ok <;>
    by_cases h2 : (w 1).1 = Status.ok <;>
    simp [RollbackInternal, rollbackBatchOf, hiter, h1, h2]

/-- Witness for C3 on a pending batch that writes the same key twice. -/
theorem rollback_batch_dedup_pre_txn_witness :
    (RollbackBuilder.iterate dbFound (7 - 1)
        [BatchEntry.put 0 1 2, BatchEntry.put 0 1 4] ⟨[], []⟩).1 = Status.ok ∧
    (((rollbackBatchOf dbFound 7 [BatchEntry.put 0 1 2, BatchEntry.put 0 1 4]).map
        RollbackOp.cfKey).Nodup ∧
     GoodOps dbFound (7 - 1)
       (rollbackBatchOf dbFound 7 [BatchEntry.put 0 1 2, BatchEntry.put 0 1 4]) ∧
     (∃ cb rest,
       (RollbackInternal dbFound 7 3 [BatchEntry.put 0 1 2, BatchEntry.put 0 1 4]
          false wOk).2 =
        Event.write
          (WrittenBatch.rollbackData
            (rollbackBatchOf dbFound 7 [BatchEntry.put 0 1 2, BatchEntry.put 0 1 4]) 3)
          false 1 cb :: rest)) :=
  ⟨by decide,
   rollback_batch_dedup_pre_txn dbFound 7 3
     [BatchEntry.put 0 1 2, BatchEntry.put 0 1 4] false wOk (by decide)⟩

end WritePrepared
